import Mathlib

/-!
Shallow embedding of the buse block volume driver and its two HTTP control
planes: the volume-plugin protocol server and the native volume API server.
External effects (filesystem, NBD device, kernel mount, the formatting tool)
are modelled by an oracle record of boolean or optional outcomes; the external
metadata store is modelled as a list of volume records.  Driver operations
additionally return a list of events recording the externally visible side
effects they performed.
-/

namespace Buse

/-- Filesystem format of a volume (api.FSType); FS_TYPE_NONE is `fsNone`. -/
inductive FSType where
  | fsNone
  | ext4
  | xfs
  deriving DecidableEq, Repr

/-- FSType.SimpleString from the api package: the short format name. -/
def FSType.simpleString : FSType → String
  | FSType.fsNone => "none"
  | FSType.ext4 => "ext4"
  | FSType.xfs => "xfs"

/-- api.VolumeLocator: the human readable addressing key of a volume. -/
structure VolumeLocator where
  name : String
  deriving DecidableEq, Repr

/-- api.VolumeSpec: requested size, filesystem format and scale factor. -/
structure VolumeSpec where
  size : Nat
  format : FSType
  scale : Nat
  deriving DecidableEq, Repr

/-- api.Volume: one volume record as kept in the external metadata store. -/
structure Volume where
  id : String
  locator : VolumeLocator
  sourceParent : Option String
  spec : VolumeSpec
  devicePath : String
  attachPath : List String
  deriving DecidableEq, Repr

/-- buseDev: in-process device state, keyed by device path in the registry.
The open file handle and the NBD connection are not observable beyond the
backing file they own, so only the file is kept. -/
structure BuseDev where
  file : String
  deriving DecidableEq, Repr

/-- The driver state: the external metadata store contents, the process-wide
device registry (buseDevices), the set of backing files on disk, and a
counter from which fresh volume ids are generated (modelling uuid.New). -/
structure DriverState where
  store : List Volume
  buseDevices : List (String × BuseDev)
  files : List String
  counter : Nat
  deriving DecidableEq, Repr

/-- Errors returned by driver operations and the protocol layers.  Each
constructor corresponds to one distinct error produced by the source. -/
inductive DErr where
  | sizeZero
  | formatMissing
  | fileCreateFailed (p : String)
  | truncateFailed (p : String)
  | nbdConnectFailed (p : String)
  | mkfsFailed (dev : String)
  | locateFailed (id : String)
  | deviceNotRegistered (dev : String)
  | alreadyMounted (p : String)
  | mountFailed (dev mp : String)
  | notMounted (id : String)
  | unmountFailed (p : String)
  | notSupported
  | copyOpenFailed (p : String)
  | copyCreateFailed (p : String)
  | copyFailed (src dst : String)
  | volAttachedScale
  | volAttachedOnRemote
  | other (s : String)
  deriving DecidableEq, Repr

/-- Error text as produced by the Error method, used by the JSON encoders. -/
def DErr.text : DErr → String
  | DErr.sizeZero => "Volume size cannot be zero"
  | DErr.formatMissing => "Missing volume format"
  | DErr.fileCreateFailed p => "Failed to create file " ++ p
  | DErr.truncateFailed p => "Failed to truncate file " ++ p
  | DErr.nbdConnectFailed p => "Failed to connect to NBD for " ++ p
  | DErr.mkfsFailed dev => "Failed to run mkfs on " ++ dev
  | DErr.locateFailed id => "Failed to locate volume " ++ id
  | DErr.deviceNotRegistered dev => "Cannot locate a BUSE device for " ++ dev
  | DErr.alreadyMounted p => "Volume already mounted at " ++ p
  | DErr.mountFailed dev mp => "Failed to mount " ++ dev ++ " at " ++ mp
  | DErr.notMounted id => "Device " ++ id ++ " not mounted"
  | DErr.unmountFailed p => "Failed to unmount " ++ p
  | DErr.notSupported => "Not supported"
  | DErr.copyOpenFailed p => "Failed to open " ++ p
  | DErr.copyCreateFailed p => "Failed to create " ++ p
  | DErr.copyFailed src dst => "Failed to copy " ++ src ++ " to " ++ dst
  | DErr.volAttachedScale => "Volume is attached on another node, all scaled volumes remain attached"
  | DErr.volAttachedOnRemote => "Volume is attached on another node"
  | DErr.other s => s

/-- Externally visible side effects performed by driver operations. -/
inductive Event where
  | fileCreated (p : String)
  | nbdConnected (dev : String)
  | mkfsRun (fs dev : String)
  | storeCreated (id : String)
  | storeUpdated (id : String)
  | storeDeleted (id : String)
  | kernelMount (dev mp : String)
  | kernelUnmount (mp : String)
  | fileRemoved (p : String)
  | handleClosed (p : String)
  | nbdDisconnected (dev : String)
  | copyAttempt (src dst : String)
  | chmodCalled (p : String)
  deriving DecidableEq, Repr

/-- Oracle for the outcomes of external operations: file creation, truncate,
NBD connect, the mkfs tool, kernel mount and unmount, and the primitives
used by copyFile (open, create, io.Copy, os.Stat). -/
structure SysOracle where
  fileCreateOk : String → Bool
  truncateOk : String → Bool
  nbdConnect : String → Option String
  mkfsOk : String → String → Bool
  mountOk : String → String → String → Bool
  unmountOk : String → Bool
  openOk : String → Bool
  destCreateOk : String → Bool
  ioCopyOk : String → String → Bool
  statMode : String → Option Nat

/-- BuseMountPath constant from the driver. -/
def BuseMountPath : String := "/var/lib/openstorage/buse/"

/-- Fresh volume id generation, modelling uuid.New over a state counter. -/
def freshId (n : Nat) : String := "uuid-" ++ toString n

/-- Modelled from the spec: the external metadata store GetVol primitive of
the store enumerator (code not under src), which retrieves the volume record
with the given id. -/
def getVol (st : DriverState) (volumeID : String) : Option Volume :=
  st.store.find? (fun v => v.id == volumeID)

/-- Modelled from the spec: the store enumerator CreateVol primitive, which
persists a new volume record. -/
def createVol (st : DriverState) (v : Volume) : DriverState :=
  { st with store := st.store ++ [v] }

/-- Modelled from the spec: the store enumerator UpdateVol primitive, which
persists an updated volume record. -/
def updateVol (st : DriverState) (v : Volume) : DriverState :=
  { st with store := st.store.map (fun w => if w.id == v.id then v else w) }

/-- Modelled from the spec: the store enumerator DeleteVol primitive, which
removes the volume record with the given id. -/
def deleteVol (st : DriverState) (volumeID : String) : DriverState :=
  { st with store := st.store.filter (fun v => v.id != volumeID) }

/-- copyFile from the buse driver.  Note the source checks the os.Stat error
with an inverted condition: os.Chmod is called only in the branch where the
stat FAILED (and the outer error is shadowed, so a stat or chmod outcome
never changes the returned error).  The event list records the invocation of
the content copy and, when reached, the chmod call. -/
def copyFile (sys : SysOracle) (source dest : String) : List Event × Option DErr :=
  if sys.openOk source = false then
    ([], Option.some (DErr.copyOpenFailed source))
  else if sys.destCreateOk dest = false then
    ([], Option.some (DErr.copyCreateFailed dest))
  else if sys.ioCopyOk source dest = false then
    ([Event.copyAttempt source dest], Option.some (DErr.copyFailed source dest))
  else
    match sys.statMode source with
    | Option.some _ => ([Event.copyAttempt source dest], Option.none)
    | Option.none => ([Event.copyAttempt source dest, Event.chmodCalled dest], Option.none)

namespace driver

/-- driver.Create: validate the spec (size nonzero, format set), provision
the backing file, truncate it to the requested size, connect the NBD device,
run mkfs, register the device and persist the new volume record. -/
def Create (sys : SysOracle) (st : DriverState) (locator : VolumeLocator)
    (source : Option String) (spec : VolumeSpec) :
    DriverState × List Event × Except DErr String :=
  let volumeID := freshId st.counter
  if spec.size = 0 then
    (st, [], Except.error DErr.sizeZero)
  else if spec.format = FSType.fsNone then
    (st, [], Except.error DErr.formatMissing)
  else
    let buseFile := BuseMountPath ++ volumeID
    if sys.fileCreateOk buseFile = false then
      (st, [], Except.error (DErr.fileCreateFailed buseFile))
    else
      let st1 : DriverState :=
        { st with files := buseFile :: st.files, counter := st.counter + 1 }
      if sys.truncateOk buseFile = false then
        (st1, [Event.fileCreated buseFile], Except.error (DErr.truncateFailed buseFile))
      else
        match sys.nbdConnect buseFile with
        | Option.none =>
          (st1, [Event.fileCreated buseFile], Except.error (DErr.nbdConnectFailed buseFile))
        | Option.some dev =>
          if sys.mkfsOk spec.format.simpleString dev = false then
            (st1, [Event.fileCreated buseFile, Event.nbdConnected dev],
              Except.error (DErr.mkfsFailed dev))
          else
            let v : Volume :=
              { id := volumeID, locator := locator, sourceParent := source,
                spec := spec, devicePath := dev, attachPath := [] }
            let st2 : DriverState :=
              { st1 with
                buseDevices := (dev, { file := buseFile }) :: st1.buseDevices,
                store := st1.store ++ [v] }
            (st2,
              [Event.fileCreated buseFile, Event.nbdConnected dev,
               Event.mkfsRun spec.format.simpleString dev, Event.storeCreated volumeID],
              Except.ok volumeID)

/-- driver.Delete: look up the record, look up the device registry entry by
the device path, then remove the backing file, close the handle, disconnect
the NBD device and delete the record.  The registry entry itself is never
removed by the source. -/
def Delete (st : DriverState) (volumeID : String) :
    DriverState × List Event × Option DErr :=
  match getVol st volumeID with
  | Option.none => (st, [], Option.some (DErr.locateFailed volumeID))
  | Option.some v =>
    match st.buseDevices.find? (fun p => p.1 == v.devicePath) with
    | Option.none => (st, [], Option.some (DErr.deviceNotRegistered v.devicePath))
    | Option.some p =>
      let st1 : DriverState := { st with files := st.files.filter (fun f => f != p.2.file) }
      let st2 := deleteVol st1 volumeID
      (st2,
        [Event.fileRemoved p.2.file, Event.handleClosed p.2.file,
         Event.nbdDisconnected p.1, Event.storeDeleted volumeID],
        Option.none)

/-- driver.MountedAt: the buse driver always returns the empty string. -/
def MountedAt (mountpath : String) : String := ""

/-- driver.Mount: reject when AttachPath is already populated, perform the
kernel mount, then record the mountpath as the single AttachPath entry and
persist the updated record. -/
def Mount (sys : SysOracle) (st : DriverState) (volumeID mountpath : String) :
    DriverState × List Event × Option DErr :=
  match getVol st volumeID with
  | Option.none => (st, [], Option.some (DErr.locateFailed volumeID))
  | Option.some v =>
    if 0 < v.attachPath.length then
      (st, [], Option.some (DErr.alreadyMounted (v.attachPath.headD "")))
    else if sys.mountOk v.devicePath mountpath v.spec.format.simpleString = false then
      (st, [], Option.some (DErr.mountFailed v.devicePath mountpath))
    else
      (updateVol st { v with attachPath := [mountpath] },
        [Event.kernelMount v.devicePath mountpath, Event.storeUpdated v.id],
        Option.none)

/-- driver.Unmount: reject when AttachPath is empty (or holds an empty
string), perform the kernel unmount of the recorded path, then clear
AttachPath and persist. -/
def Unmount (sys : SysOracle) (st : DriverState) (volumeID mountpath : String) :
    DriverState × List Event × Option DErr :=
  match getVol st volumeID with
  | Option.none => (st, [], Option.some (DErr.locateFailed volumeID))
  | Option.some v =>
    match v.attachPath with
    | [] => (st, [], Option.some (DErr.notMounted volumeID))
    | p :: _ =>
      if p.length = 0 then (st, [], Option.some (DErr.notMounted volumeID))
      else if sys.unmountOk p = false then
        (st, [], Option.some (DErr.unmountFailed p))
      else
        (updateVol st { v with attachPath := [] },
          [Event.kernelUnmount p, Event.storeUpdated v.id],
          Option.none)

/-- driver.Snapshot: inspect the source volume, create a new volume with the
source Spec and Source.Parent set, then copy the backing file.  Every failure
path returns the empty id together with a nil error (the source masks the
underlying error); a copy failure first deletes the newly created volume. -/
def Snapshot (sys : SysOracle) (st : DriverState) (volumeID : String)
    (readonly : Bool) (locator : VolumeLocator) :
    DriverState × List Event × (String × Option DErr) :=
  match getVol st volumeID with
  | Option.none => (st, [], ("", Option.none))
  | Option.some v =>
    match Create sys st locator (Option.some volumeID) v.spec with
    | (st1, ev1, Except.error _) => (st1, ev1, ("", Option.none))
    | (st1, ev1, Except.ok newVolumeID) =>
      match copyFile sys (BuseMountPath ++ volumeID) (BuseMountPath ++ newVolumeID) with
      | (ev2, Option.some _) =>
        match Delete st1 newVolumeID with
        | (st2, ev3, _) => (st2, ev1 ++ ev2 ++ ev3, ("", Option.none))
      | (ev2, Option.none) => (st1, ev1 ++ ev2, (newVolumeID, Option.none))

/-- Placeholder for api.Stats values (never constructed by this driver). -/
inductive ApiStats where
  | mk
  deriving DecidableEq, Repr

/-- Placeholder for api.Alerts values (never constructed by this driver). -/
inductive ApiAlerts where
  | mk
  deriving DecidableEq, Repr

/-- Placeholder for api.ActiveRequests values. -/
inductive ApiActiveRequests where
  | mk
  deriving DecidableEq, Repr

/-- driver.Stats: always a nil result with ErrNotSupported. -/
def Stats (volumeID : String) (cumulative : Bool) :
    Option ApiStats × Option DErr :=
  (Option.none, Option.some DErr.notSupported)

/-- driver.Alerts: always a nil result with ErrNotSupported. -/
def Alerts (volumeID : String) : Option ApiAlerts × Option DErr :=
  (Option.none, Option.some DErr.notSupported)

/-- driver.GetActiveRequests: the source returns a nil result AND a nil
error. -/
def GetActiveRequests : Option ApiActiveRequests × Option DErr :=
  (Option.none, Option.none)

/-- driver.Attach: nothing to do, returns the backing file path. -/
def Attach (volumeID : String) : String × Option DErr :=
  (BuseMountPath ++ volumeID, Option.none)

/-- driver.Detach: nothing to do. -/
def Detach (volumeID : String) : Option DErr := Option.none

end driver

/-- api.DriverType: whether a backend is a block driver. -/
inductive DriverType where
  | block
  | file
  deriving DecidableEq, Repr

/-- The volume driver contract (volume.VolumeDriver) as seen by the protocol
servers, over an abstract driver state.  Each field corresponds to one
interface method used by a handler. -/
structure VolumeDriverIface (σ : Type) where
  typ : DriverType
  inspectOne : σ → String → Option Volume
  enumerateByName : σ → String → List Volume
  inspectIds : σ → List String → Except DErr (List Volume)
  create : σ → VolumeLocator → Option String → VolumeSpec → σ × Except DErr String
  delete : σ → String → σ × Option DErr
  attach : σ → String → σ × Except DErr String
  detach : σ → String → σ × Option DErr
  mount : σ → String → String → σ × Option DErr
  unmount : σ → String → String → σ × Option DErr
  mountedAt : σ → String → String
  snapshot : σ → String → Bool → VolumeLocator → σ × String × Option DErr
  stats : σ → String → Bool → Option driver.ApiStats × Option DErr
  alerts : σ → String → Option driver.ApiAlerts × Option DErr
  activeRequests : σ → Option driver.ApiActiveRequests × Option DErr

/-- volume.MountBase: the root under which plugin mountpoints live. -/
def MountBase : String := "/var/lib/osd/mounts/"

/-- The plugin server mountpath helper: path.Join of MountBase and the name. -/
def mountpathOf (name : String) : String := MountBase ++ name

/-- The plugin response body: the Err field of the volume plugin protocol. -/
structure VolumeResponse where
  err : String
  deriving DecidableEq, Repr

/-- volFromName from the plugin server: resolve by Inspect with the name as
an id (success with exactly one record), else Enumerate by locator name
(success with exactly one record), else fail. -/
def volFromNameI {σ : Type} (vd : VolumeDriverIface σ) (s : σ) (name : String) :
    Except DErr Volume :=
  match vd.inspectOne s name with
  | Option.some v => Except.ok v
  | Option.none =>
    match vd.enumerateByName s name with
    | [v] => Except.ok v
    | _ => Except.error (DErr.other ("Cannot locate volume " ++ name))

/-- Derived replica name used by the scale-up search. -/
def derivedName (name : String) (i : Nat) : String := name ++ "_" ++ toString i

/-- The scale-up loop body of driver.scaleUp, with the remaining iteration
count as first argument (the loop runs for replica index i while
i is below Spec.Scale): resolve the derived name or create a volume with it
and the source Spec, attach it, and stop at the first attach success; when
the indices are exhausted return the input volume with ErrVolAttachedScale. -/
def scaleUpAux {σ : Type} (vd : VolumeDriverIface σ) (inVol : Volume) :
    Nat → Nat → σ → σ × Volume × Option DErr
  | 0, _, s => (s, inVol, Option.some DErr.volAttachedScale)
  | fuel + 1, i, s =>
    let name := derivedName inVol.locator.name i
    match volFromNameI vd s name with
    | Except.ok outVol =>
      match vd.attach s outVol.id with
      | (s1, Except.ok _) => (s1, outVol, Option.none)
      | (s1, Except.error _) => scaleUpAux vd inVol fuel (i + 1) s1
    | Except.error _ =>
      match vd.create s { name := name } Option.none inVol.spec with
      | (s1, Except.error e) => (s1, inVol, Option.some e)
      | (s1, Except.ok id) =>
        match volFromNameI vd s1 id with
        | Except.error e => (s1, inVol, Option.some e)
        | Except.ok outVol =>
          match vd.attach s1 outVol.id with
          | (s2, Except.ok _) => (s2, outVol, Option.none)
          | (s2, Except.error _) => scaleUpAux vd inVol fuel (i + 1) s2

/-- driver.scaleUp of the plugin server: run the scale-up loop for replica
indices 1 up to Spec.Scale - 1. -/
def scaleUp {σ : Type} (vd : VolumeDriverIface σ) (s : σ) (inVol : Volume) :
    σ × Volume × Option DErr :=
  scaleUpAux vd inVol (inVol.spec.scale - 1) 1 s

/-- driver.attachVol of the plugin server: attach the resolved volume,
treating ErrVolAttachedOnRemoteNode as success and entering scaleUp on
ErrVolAttachedScale when Spec.Scale exceeds one. -/
def attachVol {σ : Type} (vd : VolumeDriverIface σ) (s : σ) (vol : Volume) :
    σ × Volume × Option DErr :=
  match vd.attach s vol.id with
  | (s1, Except.ok _) => (s1, vol, Option.none)
  | (s1, Except.error DErr.volAttachedOnRemote) => (s1, vol, Option.none)
  | (s1, Except.error DErr.volAttachedScale) =>
    if 1 < vol.spec.scale then scaleUp vd s1 vol
    else (s1, vol, Option.some DErr.volAttachedScale)
  | (s1, Except.error e) => (s1, vol, Option.some e)

/-- driver.mount of the plugin server, after request decoding: resolve the
name, attach (with scale-up) when the backend is a block driver, then mount
the resulting volume id at the mountpath derived from the request name.  The
result is the response mountpoint (when successful) or the error. -/
def pluginMount {σ : Type} (vd : VolumeDriverIface σ) (s : σ) (name : String) :
    σ × Option String × Option DErr :=
  match volFromNameI vd s name with
  | Except.error e => (s, Option.none, Option.some e)
  | Except.ok vol =>
    let afterAttach : σ × Volume × Option DErr :=
      if vd.typ = DriverType.block then attachVol vd s vol else (s, vol, Option.none)
    match afterAttach with
    | (s1, _, Option.some e) => (s1, Option.none, Option.some e)
    | (s1, vol1, Option.none) =>
      let mp := mountpathOf name
      match vd.mount s1 vol1.id mp with
      | (s2, Option.some e) => (s2, Option.none, Option.some e)
      | (s2, Option.none) => (s2, Option.some mp, Option.none)

/-- driver.create of the plugin server, after request decoding: if the
parsed name already resolves, answer with an empty Err without touching the
driver; otherwise obtain the spec (from the name or from the request Opts)
and invoke the driver Create. -/
def pluginCreate {σ : Type} (vd : VolumeDriverIface σ) (s : σ) (specParsed : Bool)
    (parsedSpec : VolumeSpec) (optsSpec : Except DErr VolumeSpec) (name : String) :
    σ × VolumeResponse :=
  match volFromNameI vd s name with
  | Except.ok _ => (s, { err := "" })
  | Except.error _ =>
    match (if specParsed then Except.ok parsedSpec else optsSpec) with
    | Except.error e => (s, { err := e.text })
    | Except.ok sp =>
      match vd.create s { name := name } Option.none sp with
      | (s1, Except.error e) => (s1, { err := e.text })
      | (s1, Except.ok _) => (s1, { err := "" })

/-- The tail of the plugin unmount handler: driver Unmount of the chosen id,
then Detach for block backends. -/
def pluginUnmountRest {σ : Type} (vd : VolumeDriverIface σ) (s : σ) (id mp : String) :
    σ × VolumeResponse :=
  match vd.unmount s id mp with
  | (s1, Option.some e) => (s1, { err := e.text })
  | (s1, Option.none) =>
    if vd.typ = DriverType.block then
      match vd.detach s1 id with
      | (s2, _) => (s2, { err := "" })
    else (s1, { err := "" })

/-- driver.unmount of the plugin server, after request decoding: resolve the
name; when Spec.Scale exceeds one, map the mountpoint back to a volume id via
MountedAt and fail when no mapping is found; otherwise unmount the resolved
id. -/
def pluginUnmount {σ : Type} (vd : VolumeDriverIface σ) (s : σ) (name : String) :
    σ × VolumeResponse :=
  match volFromNameI vd s name with
  | Except.error e => (s, { err := "Failed to locate volume: " ++ e.text })
  | Except.ok vol =>
    let mp := mountpathOf name
    if 1 < vol.spec.scale then
      let id := vd.mountedAt s mp
      if id.length = 0 then
        (s, { err := "Failed to find volume mapping for " ++ mp })
      else pluginUnmountRest vd s id mp
    else pluginUnmountRest vd s vol.id mp

/-- The buse driver packaged behind the volume driver contract.  Inspect is
modelled from the spec (store enumerator Inspect: all requested records or an
error); the remaining fields forward to the driver functions above,
discarding the event instrumentation. -/
def buseIface (sys : SysOracle) : VolumeDriverIface DriverState where
  typ := DriverType.block
  inspectOne := fun st n => getVol st n
  enumerateByName := fun st n => st.store.filter (fun v => v.locator.name == n)
  inspectIds := fun st ids =>
    let found := ids.filterMap (fun i => getVol st i)
    if found.length = ids.length then Except.ok found
    else Except.error (DErr.locateFailed (String.intercalate "," ids))
  create := fun st l src sp =>
    match driver.Create sys st l src sp with
    | (st1, _, r) => (st1, r)
  delete := fun st id =>
    match driver.Delete st id with
    | (st1, _, r) => (st1, r)
  attach := fun st id => (st, Except.ok (driver.Attach id).1)
  detach := fun st id => (st, driver.Detach id)
  mount := fun st id mp =>
    match driver.Mount sys st id mp with
    | (st1, _, r) => (st1, r)
  unmount := fun st id mp =>
    match driver.Unmount sys st id mp with
    | (st1, _, r) => (st1, r)
  mountedAt := fun _ mp => driver.MountedAt mp
  snapshot := fun st id ro loc =>
    match driver.Snapshot sys st id ro loc with
    | (st1, _, r) => (st1, r.1, r.2)
  stats := fun _ id c => driver.Stats id c
  alerts := fun _ id => driver.Alerts id
  activeRequests := fun _ => driver.GetActiveRequests

/-- State of an abstract scaled block backend used to observe the plugin
mount path: the volumes created during scale-up, the sequence of attach
calls, and the mount calls performed. -/
structure ScaleSim where
  created : List Volume
  attachCalls : List String
  mounted : List (String × String)
  deriving DecidableEq, Repr

/-- Initial plugin simulation state. -/
def ScaleSim.init : ScaleSim := { created := [], attachCalls := [], mounted := [] }

/-- The volume record a backend driver produces for a freshly created
replica: its id and locator carry the requested name and it has the
requested spec. -/
def mkReplica (name : String) (sp : VolumeSpec) : Volume :=
  { id := name, locator := { name := name }, sourceParent := Option.none,
    spec := sp, devicePath := "", attachPath := [] }

/-- A block backend driver instance parameterised by a resolution oracle for
pre-existing volumes and an attach outcome oracle by volume id; creation
always succeeds and registers the replica, attach and mount calls are
recorded in the state. -/
def scaleIface (resolve : String → Option Volume) (att : String → Except DErr String) :
    VolumeDriverIface ScaleSim where
  typ := DriverType.block
  inspectOne := fun s n =>
    match resolve n with
    | Option.some v => Option.some v
    | Option.none => s.created.find? (fun v => v.id == n)
  enumerateByName := fun _ _ => []
  inspectIds := fun _ _ => Except.error DErr.notSupported
  create := fun s l _ sp =>
    let v := mkReplica l.name sp
    ({ s with created := v :: s.created }, Except.ok v.id)
  delete := fun s _ => (s, Option.none)
  attach := fun s id => ({ s with attachCalls := s.attachCalls ++ [id] }, att id)
  detach := fun s _ => (s, Option.none)
  mount := fun s id mp => ({ s with mounted := s.mounted ++ [(id, mp)] }, Option.none)
  unmount := fun s _ _ => (s, Option.none)
  mountedAt := fun _ _ => ""
  snapshot := fun s _ _ _ => (s, "", Option.none)
  stats := fun _ _ _ => (Option.none, Option.some DErr.notSupported)
  alerts := fun _ _ => (Option.none, Option.some DErr.notSupported)
  activeRequests := fun _ => (Option.none, Option.none)

/-- The volume the scale-up loop attempts to attach at replica index i: the
resolved pre-existing volume with the derived name, or the replica the
backend creates for that name. -/
def scaleCandidate (resolve : String → Option Volume) (baseName : String)
    (sp : VolumeSpec) (i : Nat) : Volume :=
  match resolve (derivedName baseName i) with
  | Option.some v => v
  | Option.none => mkReplica (derivedName baseName i) sp

/-- An HTTP response of the native volume API server: the status code and,
for bodies that embed one, the Error string field of the encoded JSON. -/
structure HttpResp where
  status : Nat
  errField : Option String
  deriving DecidableEq, Repr

/-- responseStatus from the native API server: empty string for a nil
error, otherwise the error text. -/
def responseStatus : Option DErr → String
  | Option.none => ""
  | Option.some e => e.text

/-- responseStatus applied to a result-or-error value. -/
def exceptStatus : Except DErr String → String
  | Except.ok _ => ""
  | Except.error e => e.text

/-- Body of a POST volumes request (api.VolumeCreateRequest). -/
structure VolumeCreateReq where
  locator : VolumeLocator
  source : Option String
  spec : VolumeSpec
  deriving DecidableEq, Repr

/-- Body of a POST snapshots request (api.SnapCreateRequest). -/
structure SnapCreateReq where
  id : String
  readonly : Bool
  locator : VolumeLocator
  deriving DecidableEq, Repr

/-- volApi.create: a body that fails to decode gives HTTP 400; an
unresolvable driver gives HTTP 404; otherwise the driver Create result is
encoded with HTTP 200 and the embedded Error field. -/
def volApiCreate {σ : Type} (vd : VolumeDriverIface σ) (s : σ) (driverOk : Bool)
    (body : Option VolumeCreateReq) : σ × HttpResp :=
  match body with
  | Option.none => (s, { status := 400, errField := Option.none })
  | Option.some req =>
    if driverOk = false then (s, { status := 404, errField := Option.none })
    else
      match vd.create s req.locator req.source req.spec with
      | (s1, r) => (s1, { status := 200, errField := Option.some (exceptStatus r) })

/-- volApi.delete: unparsable id gives HTTP 400; unresolvable driver gives
HTTP 404; the driver Delete result is encoded with HTTP 200 and the embedded
Error field (empty on success). -/
def volApiDelete {σ : Type} (vd : VolumeDriverIface σ) (s : σ)
    (idParam : Option String) (driverOk : Bool) : σ × HttpResp :=
  match idParam with
  | Option.none => (s, { status := 400, errField := Option.none })
  | Option.some id =>
    if driverOk = false then (s, { status := 404, errField := Option.none })
    else
      match vd.delete s id with
      | (s1, Option.some e) => (s1, { status := 200, errField := Option.some e.text })
      | (s1, Option.none) => (s1, { status := 200, errField := Option.some "" })

/-- volApi.inspect: an unresolvable driver gives HTTP 404, an unparsable id
HTTP 400, and a driver Inspect error is sent as HTTP 404 (sendError), not as
an embedded Error field. -/
def volApiInspect {σ : Type} (vd : VolumeDriverIface σ) (s : σ) (driverOk : Bool)
    (idParam : Option String) : σ × HttpResp :=
  if driverOk = false then (s, { status := 404, errField := Option.none })
  else
    match idParam with
    | Option.none => (s, { status := 400, errField := Option.none })
    | Option.some id =>
      match vd.inspectIds s [id] with
      | Except.error _ => (s, { status := 404, errField := Option.none })
      | Except.ok _ => (s, { status := 200, errField := Option.none })

/-- strconv.ParseBool. -/
def parseBoolGo (s : String) : Option Bool :=
  if s = "1" ∨ s = "t" ∨ s = "T" ∨ s = "true" ∨ s = "TRUE" ∨ s = "True" then
    Option.some true
  else if s = "0" ∨ s = "f" ∨ s = "F" ∨ s = "false" ∨ s = "FALSE" ∨ s = "False" then
    Option.some false
  else Option.none

/-- The cumulative flag computed by volApi.stats: true when the parameter is
absent; when present, the stats handler checks the wrong condition after
ParseBool (it tests the query lookup flag instead of the parse error), so the
value is the ParseBool result, false on a parse failure, and the handler
never rejects the parameter. -/
def statsCumulative (cumulativeParam : Option String) : Bool :=
  match cumulativeParam with
  | Option.none => true
  | Option.some v => (parseBoolGo v).getD false

/-- volApi.stats: unparsable id gives HTTP 400, an unresolvable driver HTTP
404, and a driver Stats error is sent as HTTP 400 (sendError), not as an
embedded Error field. -/
def volApiStats {σ : Type} (vd : VolumeDriverIface σ) (s : σ)
    (idParam : Option String) (cumulativeParam : Option String) (driverOk : Bool) :
    σ × HttpResp :=
  match idParam with
  | Option.none => (s, { status := 400, errField := Option.none })
  | Option.some id =>
    let cumulative := statsCumulative cumulativeParam
    if driverOk = false then (s, { status := 404, errField := Option.none })
    else
      match vd.stats s id cumulative with
      | (_, Option.some _) => (s, { status := 400, errField := Option.none })
      | (_, Option.none) => (s, { status := 200, errField := Option.none })

/-- volApi.alerts: unparsable id gives HTTP 400, an unresolvable driver HTTP
404, and a driver Alerts error is sent as HTTP 400. -/
def volApiAlerts {σ : Type} (vd : VolumeDriverIface σ) (s : σ)
    (idParam : Option String) (driverOk : Bool) : σ × HttpResp :=
  match idParam with
  | Option.none => (s, { status := 400, errField := Option.none })
  | Option.some id =>
    if driverOk = false then (s, { status := 404, errField := Option.none })
    else
      match vd.alerts s id with
      | (_, Option.some _) => (s, { status := 400, errField := Option.none })
      | (_, Option.none) => (s, { status := 200, errField := Option.none })

/-- volApi.requests: an unresolvable driver gives HTTP 404 and a driver
GetActiveRequests error is sent as HTTP 400. -/
def volApiRequests {σ : Type} (vd : VolumeDriverIface σ) (s : σ) (driverOk : Bool) :
    σ × HttpResp :=
  if driverOk = false then (s, { status := 404, errField := Option.none })
  else
    match vd.activeRequests s with
    | (_, Option.some _) => (s, { status := 400, errField := Option.none })
    | (_, Option.none) => (s, { status := 200, errField := Option.none })

/-- volApi.snap: a body that fails to decode gives HTTP 400, an unresolvable
driver HTTP 404, and the driver Snapshot result is always encoded with HTTP
200 and the embedded Error field. -/
def volApiSnap {σ : Type} (vd : VolumeDriverIface σ) (s : σ)
    (body : Option SnapCreateReq) (driverOk : Bool) : σ × HttpResp :=
  match body with
  | Option.none => (s, { status := 400, errField := Option.none })
  | Option.some req =>
    if driverOk = false then (s, { status := 404, errField := Option.none })
    else
      match vd.snapshot s req.id req.readonly req.locator with
      | (s1, _, e) => (s1, { status := 200, errField := Option.some (responseStatus e) })

/-- Concrete oracle where every external operation succeeds. -/
def sysW : SysOracle where
  fileCreateOk := fun _ => true
  truncateOk := fun _ => true
  nbdConnect := fun _ => Option.some "/dev/nbd1"
  mkfsOk := fun _ _ => true
  mountOk := fun _ _ _ => true
  unmountOk := fun _ => true
  openOk := fun _ => true
  destCreateOk := fun _ => true
  ioCopyOk := fun _ _ => true
  statMode := fun _ => Option.some 420

/-- Concrete oracle where the backing file content copy fails and everything
else succeeds. -/
def sysCopyFail : SysOracle :=
  { sysW with ioCopyOk := fun _ _ => false }

/-- An empty driver state. -/
def stW : DriverState where
  store := []
  buseDevices := []
  files := []
  counter := 0

/-- A concrete volume record, not mounted. -/
def vW : Volume where
  id := "v1"
  locator := { name := "db" }
  sourceParent := Option.none
  spec := { size := 1024, format := FSType.ext4, scale := 1 }
  devicePath := "/dev/nbd0"
  attachPath := []

/-- A state holding vW but with an empty device registry. -/
def stW1 : DriverState where
  store := [vW]
  buseDevices := []
  files := [BuseMountPath ++ "v1"]
  counter := 1

/-- A concrete volume record with a scale factor of two. -/
def vScale : Volume :=
  { vW with
    id := "v2"
    locator := VolumeLocator.mk "web"
    spec := VolumeSpec.mk 1024 FSType.ext4 2 }

/-- A state holding the scaled volume vScale. -/
def stW2 : DriverState :=
  { stW1 with store := [vScale] }

/-- The volume record Create persists for the snapshot of volumeID with the
given spec when the NBD device path is dev. -/
def snapNewVol (st : DriverState) (locator : VolumeLocator) (volumeID : String)
    (sp : VolumeSpec) (dev : String) : Volume :=
  { id := freshId st.counter, locator := locator,
    sourceParent := Option.some volumeID, spec := sp,
    devicePath := dev, attachPath := [] }

/-- The driver state after the successful Create step of a snapshot. -/
def snapStC (st : DriverState) (locator : VolumeLocator) (volumeID : String)
    (sp : VolumeSpec) (dev : String) : DriverState :=
  { store := st.store ++ [snapNewVol st locator volumeID sp dev],
    buseDevices :=
      (dev, { file := BuseMountPath ++ freshId st.counter }) :: st.buseDevices,
    files := (BuseMountPath ++ freshId st.counter) :: st.files,
    counter := st.counter + 1 }

/-- A concrete scale-three volume for the scale-up scenario. -/
def inV0 : Volume where
  id := "v0"
  locator := { name := "db" }
  sourceParent := Option.none
  spec := { size := 1024, format := FSType.ext4, scale := 3 }
  devicePath := ""
  attachPath := []

/-- A concrete pre-existing first replica of inV0. -/
def rep1 : Volume where
  id := "r1"
  locator := { name := "db_1" }
  sourceParent := Option.none
  spec := { size := 1024, format := FSType.ext4, scale := 3 }
  devicePath := ""
  attachPath := []

/-- Concrete resolution oracle: the base name and the first derived name
resolve; the second derived name does not and must be created. -/
def resolveW : String → Option Volume := fun n =>
  if n = "db" then Option.some inV0
  else if n = "db_1" then Option.some rep1
  else Option.none

/-- Concrete attach oracle: the base volume is at its scale limit, the
first replica fails to attach, everything else attaches. -/
def attW : String → Except DErr String := fun id =>
  if id = "v0" then Except.error DErr.volAttachedScale
  else if id = "r1" then Except.error (DErr.other "attached elsewhere")
  else Except.ok ("/attach/" ++ id)

/-- C7 counterexample: the claim that Stats, Alerts and GetActiveRequests
each fail with NotSupported is false, because GetActiveRequests returns a
nil result together with a nil error. -/
theorem c7_telemetry_counterexample :
    driver.GetActiveRequests ≠
      (Option.none, Option.some DErr.notSupported) := by
  decide

/-- C7 amended: for every volumeID and cumulative flag, Stats and Alerts
fail with the NotSupported error and a nil result, while GetActiveRequests
returns a nil result together with a nil error. -/
theorem c7_telemetry_amended (volumeID : String) (cumulative : Bool) :
    driver.Stats volumeID cumulative = (Option.none, Option.some DErr.notSupported) ∧
    driver.Alerts volumeID = (Option.none, Option.some DErr.notSupported) ∧
    driver.GetActiveRequests = (Option.none, Option.none) :=
  ⟨rfl, rfl, rfl⟩

/-- C5: for every Create call whose spec has size zero or format NONE, the
call fails with the corresponding invalid-spec error (the size check coming
first), the state is unchanged (no backing file, no registered device, no
persisted record) and no external side effect is performed. -/
theorem c5_create_validation (sys : SysOracle) (st : DriverState)
    (locator : VolumeLocator) (source : Option String) (spec : VolumeSpec)
    (h : spec.size = 0 ∨ spec.format = FSType.fsNone) :
    driver.Create sys st locator source spec =
      (st, [], Except.error
        (if spec.size = 0 then DErr.sizeZero else DErr.formatMissing)) := by
  rcases h with h | h
  · simp [driver.Create, h]
  · by_cases h0 : spec.size = 0 <;> simp [driver.Create, h, h0]

/-- C5 witness: a Create with size zero at a concrete state fails with the
size error and changes nothing. -/
theorem c5_create_validation_witness :
    driver.Create sysW stW { name := "db" } Option.none
        { size := 0, format := FSType.ext4, scale := 1 } =
      (stW, [], Except.error DErr.sizeZero) := by
  have h := c5_create_validation sysW stW { name := "db" } Option.none
    { size := 0, format := FSType.ext4, scale := 1 } (Or.inl rfl)
  simpa using h

/-- C4: for every Delete where the volume record exists but the device
registry has no entry for its DevicePath, the call fails with the
device-not-registered error, the state is unchanged (backing file kept,
metadata record kept) and no side effect event is emitted. -/
theorem c4_delete_missing_device (st : DriverState) (volumeID : String) (v : Volume)
    (hv : getVol st volumeID = Option.some v)
    (hd : st.buseDevices.find? (fun p => p.1 == v.devicePath) = Option.none) :
    driver.Delete st volumeID =
      (st, [], Option.some (DErr.deviceNotRegistered v.devicePath)) := by
  simp [driver.Delete, hv, hd]

/-- C4 witness: deleting vW from a state whose device registry is empty
fails with the device-not-registered error and changes nothing. -/
theorem c4_delete_missing_device_witness :
    driver.Delete stW1 "v1" =
      (stW1, [], Option.some (DErr.deviceNotRegistered "/dev/nbd0")) :=
  c4_delete_missing_device stW1 "v1" vW (by decide) (by decide)

/-- C8 evaluation at the failing input: when the source opens, the
destination is created, the content copy succeeds and the source file can be
stat-ed, copyFile returns success but never calls chmod, so the destination
permission bits are not set from the source (the source code only calls
chmod in the branch where the stat failed). -/
theorem c8_copyfile_chmod_slip :
    copyFile sysW "/var/lib/openstorage/buse/v0" "/var/lib/openstorage/buse/v9" =
      ([Event.copyAttempt "/var/lib/openstorage/buse/v0" "/var/lib/openstorage/buse/v9"],
        Option.none) ∧
    Event.chmodCalled "/var/lib/openstorage/buse/v9" ∉
      (copyFile sysW "/var/lib/openstorage/buse/v0" "/var/lib/openstorage/buse/v9").1 := by
  constructor
  · rfl
  · decide

/-- C2: the AttachPath state machine.  For a volume record v found under the
given id: a Mount on an empty AttachPath (given the kernel mount succeeds)
records the single entry and persists the updated record; a Mount on a
non-empty AttachPath fails with the already-mounted error and leaves the
state unchanged; an Unmount on an empty AttachPath fails with the
not-mounted error and changes nothing; an Unmount on a mounted volume
(given the kernel unmount succeeds) clears AttachPath and persists. -/
theorem stringLengthZeroIff (p : String) : p.length = 0 ↔ p = "" := by
  constructor
  · intro h
    cases p with
    | mk data =>
      cases data with
      | nil => rfl
      | cons c cs => simp [String.length] at h
  · intro h
    subst h
    rfl

theorem c2_attach_path_state_machine (sys : SysOracle) (st : DriverState)
    (volumeID mp : String) (v : Volume)
    (hv : getVol st volumeID = Option.some v) :
    (v.attachPath = [] →
      sys.mountOk v.devicePath mp v.spec.format.simpleString = true →
      driver.Mount sys st volumeID mp =
        (updateVol st { v with attachPath := [mp] },
         [Event.kernelMount v.devicePath mp, Event.storeUpdated v.id],
         Option.none)) ∧
    (∀ p rest, v.attachPath = p :: rest →
      driver.Mount sys st volumeID mp =
        (st, [], Option.some (DErr.alreadyMounted p))) ∧
    (v.attachPath = [] →
      driver.Unmount sys st volumeID mp =
        (st, [], Option.some (DErr.notMounted volumeID))) ∧
    (∀ p rest, v.attachPath = p :: rest → p ≠ "" → sys.unmountOk p = true →
      driver.Unmount sys st volumeID mp =
        (updateVol st { v with attachPath := [] },
         [Event.kernelUnmount p, Event.storeUpdated v.id],
         Option.none)) := by
  refine ⟨?_, ?_, ?_, ?_⟩
  · intro h1 h2
    simp [driver.Mount, hv, h1, h2]
  · intro p rest h
    simp [driver.Mount, hv, h]
  · intro h1
    simp [driver.Unmount, hv, h1]
  · intro p rest h hp hu
    have hlen : ¬ p.length = 0 := by
      simpa [stringLengthZeroIff] using hp
    simp [driver.Unmount, hv, h, hu, hlen]

/-- C2 witness: at a concrete state, mounting the unmounted volume vW
records the mountpoint and persists, and unmounting it while unmounted fails
with the not-mounted error. -/
theorem c2_attach_path_state_machine_witness :
    driver.Mount sysW stW1 "v1" "/mnt/db" =
      (updateVol stW1 { vW with attachPath := ["/mnt/db"] },
       [Event.kernelMount vW.devicePath "/mnt/db", Event.storeUpdated vW.id],
       Option.none) ∧
    driver.Unmount sysW stW1 "v1" "/mnt/db" =
      (stW1, [], Option.some (DErr.notMounted "v1")) := by
  have h := c2_attach_path_state_machine sysW stW1 "v1" "/mnt/db" vW (by decide)
  exact ⟨h.1 rfl rfl, h.2.2.1 rfl⟩

/-- C10: when the parsed name of a plugin Create request already resolves to
exactly one volume, the handler answers with an empty Err and an unchanged
state (the driver Create is never invoked), so submitting the same request a
second time has the same observable effect as submitting it once. -/
theorem c10_plugin_create_idempotent {σ : Type} (vd : VolumeDriverIface σ) (s : σ)
    (specParsed : Bool) (parsedSpec : VolumeSpec) (optsSpec : Except DErr VolumeSpec)
    (name : String) (v : Volume)
    (h : volFromNameI vd s name = Except.ok v) :
    pluginCreate vd s specParsed parsedSpec optsSpec name = (s, { err := "" }) ∧
    pluginCreate vd (pluginCreate vd s specParsed parsedSpec optsSpec name).1
        specParsed parsedSpec optsSpec name = (s, { err := "" }) := by
  have h1 : pluginCreate vd s specParsed parsedSpec optsSpec name = (s, { err := "" }) := by
    simp [pluginCreate, h]
  refine ⟨h1, ?_⟩
  rw [h1]
  exact h1

/-- C10 witness: a plugin Create for the already-existing name at a concrete
state answers with an empty Err and leaves the state unchanged. -/
theorem c10_plugin_create_idempotent_witness :
    pluginCreate (buseIface sysW) stW1 true (VolumeSpec.mk 2048 FSType.xfs 1)
        (Except.error DErr.notSupported) "v1" = (stW1, { err := "" }) :=
  (c10_plugin_create_idempotent (buseIface sysW) stW1 true
    (VolumeSpec.mk 2048 FSType.xfs 1) (Except.error DErr.notSupported) "v1" vW rfl).1

/-- C9: the buse driver MountedAt returns the empty string for every
mountpath; consequently a plugin Unmount request whose resolved volume has a
scale factor above one fails with the volume-mapping error and an unchanged
state, before any driver Unmount is attempted, regardless of the actual
mount state of any replica. -/
theorem c9_unmount_scale_mapping (sys : SysOracle) (st : DriverState)
    (name : String) (vol : Volume) (mp : String)
    (hres : volFromNameI (buseIface sys) st name = Except.ok vol)
    (hscale : 1 < vol.spec.scale) :
    driver.MountedAt mp = "" ∧
    pluginUnmount (buseIface sys) st name =
      (st, { err := "Failed to find volume mapping for " ++ mountpathOf name }) := by
  refine ⟨rfl, ?_⟩
  have hma : (buseIface sys).mountedAt st (mountpathOf name) = "" := rfl
  have hlen : ("" : String).length = 0 := rfl
  simp [pluginUnmount, hres, hscale, hma, hlen]

/-- C9 witness: at a concrete state holding the scale-two volume vScale, a
plugin Unmount for its name fails with the volume-mapping error and leaves
the state unchanged. -/
theorem c9_unmount_scale_mapping_witness :
    pluginUnmount (buseIface sysW) stW2 "web" =
      (stW2, { err := "Failed to find volume mapping for " ++ mountpathOf "web" }) :=
  (c9_unmount_scale_mapping sysW stW2 "web" vScale "/any" rfl (by decide)).2

theorem copyFileFailShape (sys : SysOracle) (a b : String) (ev2 : List Event) (e : DErr)
    (h : copyFile sys a b = (ev2, Option.some e)) :
    ev2 = [] ∨ ev2 = [Event.copyAttempt a b] := by
  unfold copyFile at h
  split_ifs at h with h1 h2 h3
  · simp at h
    exact Or.inl h.1
  · simp at h
    exact Or.inl h.1
  · simp at h
    exact Or.inr h.1.symm
  · rcases hs : sys.statMode a with _ | m <;> rw [hs] at h <;> simp at h

theorem getVolDeleteVol (st : DriverState) (id : String) :
    getVol (deleteVol st id) id = Option.none := by
  simp only [getVol, deleteVol]
  rw [List.find?_eq_none]
  intro x hx
  rw [List.mem_filter] at hx
  simpa using hx.2

theorem deleteSpec (st : DriverState) (id : String) (w : Volume) (dv bf : String)
    (hw : getVol st id = Option.some w)
    (hbd : st.buseDevices.find? (fun p => p.1 == w.devicePath) =
      Option.some (dv, { file := bf })) :
    driver.Delete st id =
      (deleteVol { st with files := st.files.filter (fun f => f != bf) } id,
       [Event.fileRemoved bf, Event.handleClosed bf,
        Event.nbdDisconnected dv, Event.storeDeleted id],
       Option.none) := by
  simp [driver.Delete, hw, hbd]

/-- C3: for every Snapshot call where the source volume is found, the new
volume is created (all provisioning steps succeed for the fresh id) and the
backing-file copy then fails, the driver performs the single compensating
delete of the new volume (one fileRemoved/handleClosed/nbdDisconnected/
storeDeleted block, no retry of the copy, whose events are at most one
attempt) and the call returns the empty string id together with a nil error,
masking the underlying failure; the new record is gone from the store. -/
theorem c3_snapshot_failure_masking (sys : SysOracle) (st : DriverState)
    (volumeID : String) (readonly : Bool) (locator : VolumeLocator) (v : Volume)
    (dev : String) (ev2 : List Event) (e : DErr)
    (hv : getVol st volumeID = Option.some v)
    (hsize : ¬ v.spec.size = 0)
    (hformat : ¬ v.spec.format = FSType.fsNone)
    (hfile : sys.fileCreateOk (BuseMountPath ++ freshId st.counter) = true)
    (htrunc : sys.truncateOk (BuseMountPath ++ freshId st.counter) = true)
    (hnbd : sys.nbdConnect (BuseMountPath ++ freshId st.counter) = Option.some dev)
    (hmkfs : sys.mkfsOk v.spec.format.simpleString dev = true)
    (hfresh : getVol st (freshId st.counter) = Option.none)
    (hE : copyFile sys (BuseMountPath ++ volumeID) (BuseMountPath ++ freshId st.counter)
        = (ev2, Option.some e)) :
    ∃ st2,
      driver.Snapshot sys st volumeID readonly locator =
        (st2,
         [Event.fileCreated (BuseMountPath ++ freshId st.counter),
          Event.nbdConnected dev,
          Event.mkfsRun v.spec.format.simpleString dev,
          Event.storeCreated (freshId st.counter)]
          ++ ev2 ++
         [Event.fileRemoved (BuseMountPath ++ freshId st.counter),
          Event.handleClosed (BuseMountPath ++ freshId st.counter),
          Event.nbdDisconnected dev,
          Event.storeDeleted (freshId st.counter)],
         ("", Option.none)) ∧
      getVol st2 (freshId st.counter) = Option.none ∧
      (ev2 = [] ∨ ev2 = [Event.copyAttempt (BuseMountPath ++ volumeID)
        (BuseMountPath ++ freshId st.counter)]) := by
  have hC : driver.Create sys st locator (Option.some volumeID) v.spec =
      (snapStC st locator volumeID v.spec dev,
       [Event.fileCreated (BuseMountPath ++ freshId st.counter),
        Event.nbdConnected dev,
        Event.mkfsRun v.spec.format.simpleString dev,
        Event.storeCreated (freshId st.counter)],
       Except.ok (freshId st.counter)) := by
    simp [driver.Create, snapStC, snapNewVol, hsize, hformat, hfile, htrunc, hnbd, hmkfs]
  have hgC : getVol (snapStC st locator volumeID v.spec dev) (freshId st.counter) =
      Option.some (snapNewVol st locator volumeID v.spec dev) := by
    unfold getVol snapStC
    rw [List.find?_append]
    have hfr : st.store.find?
        (fun w => w.id == freshId st.counter) = Option.none := hfresh
    rw [hfr]
    simp [List.find?, snapNewVol]
  have hbdC : (snapStC st locator volumeID v.spec dev).buseDevices.find?
        (fun p => p.1 == (snapNewVol st locator volumeID v.spec dev).devicePath) =
      Option.some (dev, { file := BuseMountPath ++ freshId st.counter }) := by
    simp [snapStC, snapNewVol, List.find?]
  have hD := deleteSpec (snapStC st locator volumeID v.spec dev) (freshId st.counter)
    (snapNewVol st locator volumeID v.spec dev) dev (BuseMountPath ++ freshId st.counter)
    hgC hbdC
  refine ⟨deleteVol
      { snapStC st locator volumeID v.spec dev with
        files := (snapStC st locator volumeID v.spec dev).files.filter
          (fun f => f != BuseMountPath ++ freshId st.counter) }
      (freshId st.counter), ?_, getVolDeleteVol _ _, copyFileFailShape _ _ _ _ _ hE⟩
  simp only [driver.Snapshot, hv, hC, hE, hD]

/-- C3 witness: a concrete snapshot of vW whose content copy fails creates
the new volume, deletes it again, and returns the empty id with a nil
error. -/
theorem c3_snapshot_failure_masking_witness :
    ∃ st2,
      driver.Snapshot sysCopyFail stW1 "v1" false { name := "snap" } =
        (st2,
         [Event.fileCreated (BuseMountPath ++ "uuid-1"),
          Event.nbdConnected "/dev/nbd1",
          Event.mkfsRun "ext4" "/dev/nbd1",
          Event.storeCreated "uuid-1"]
          ++ [Event.copyAttempt (BuseMountPath ++ "v1") (BuseMountPath ++ "uuid-1")] ++
         [Event.fileRemoved (BuseMountPath ++ "uuid-1"),
          Event.handleClosed (BuseMountPath ++ "uuid-1"),
          Event.nbdDisconnected "/dev/nbd1",
          Event.storeDeleted "uuid-1"],
         ("", Option.none)) ∧
      getVol st2 "uuid-1" = Option.none ∧
      ([Event.copyAttempt (BuseMountPath ++ "v1") (BuseMountPath ++ "uuid-1")] = [] ∨
       [Event.copyAttempt (BuseMountPath ++ "v1") (BuseMountPath ++ "uuid-1")] =
         [Event.copyAttempt (BuseMountPath ++ "v1") (BuseMountPath ++ "uuid-1")]) :=
  c3_snapshot_failure_masking sysCopyFail stW1 "v1" false { name := "snap" } vW
    "/dev/nbd1"
    [Event.copyAttempt (BuseMountPath ++ "v1") (BuseMountPath ++ "uuid-1")]
    (DErr.copyFailed (BuseMountPath ++ "v1") (BuseMountPath ++ "uuid-1"))
    (by decide) (by decide) (by decide) rfl rfl rfl rfl (by decide) rfl

/-- C6 counterexample: the claim that every native-API handler encodes
domain failures as HTTP 200 with an embedded Error field is false: the stats
handler turns the driver Stats domain error (NotSupported for the buse
driver) into an HTTP 400 response without an embedded Error field. -/
theorem c6_native_api_counterexample :
    driver.Stats "v1" true = (Option.none, Option.some DErr.notSupported) ∧
    (volApiStats (buseIface sysW) stW1 (Option.some "v1") Option.none true).2 =
      { status := 400, errField := Option.none } :=
  ⟨rfl, rfl⟩

/-- C6 amended: the create, delete and snapshot handlers encode driver
errors as HTTP 200 with the error text in the embedded Error field, while
the inspect handler maps a driver error to HTTP 404 and the stats, alerts
and active-requests handlers map driver errors to HTTP 400; malformed
requests (bad body, unparsable id) give HTTP 400 and an unresolvable driver
name gives HTTP 404. -/
theorem c6_native_api_amended {σ : Type} (vd : VolumeDriverIface σ) (s : σ)
    (req : VolumeCreateReq) (snapReq : SnapCreateReq) (id : String)
    (cumulativeParam : Option String) :
    (∀ s1 e, vd.create s req.locator req.source req.spec = (s1, Except.error e) →
       volApiCreate vd s true (Option.some req) =
         (s1, { status := 200, errField := Option.some e.text })) ∧
    (∀ s1 e, vd.delete s id = (s1, Option.some e) →
       volApiDelete vd s (Option.some id) true =
         (s1, { status := 200, errField := Option.some e.text })) ∧
    (∀ s1 rid e, vd.snapshot s snapReq.id snapReq.readonly snapReq.locator =
         (s1, rid, Option.some e) →
       volApiSnap vd s (Option.some snapReq) true =
         (s1, { status := 200, errField := Option.some e.text })) ∧
    (∀ e, vd.inspectIds s [id] = Except.error e →
       (volApiInspect vd s true (Option.some id)).2 =
         { status := 404, errField := Option.none }) ∧
    (∀ r e, vd.stats s id (statsCumulative cumulativeParam) = (r, Option.some e) →
       (volApiStats vd s (Option.some id) cumulativeParam true).2 =
         { status := 400, errField := Option.none }) ∧
    (∀ r e, vd.alerts s id = (r, Option.some e) →
       (volApiAlerts vd s (Option.some id) true).2 =
         { status := 400, errField := Option.none }) ∧
    (∀ r e, vd.activeRequests s = (r, Option.some e) →
       (volApiRequests vd s true).2 = { status := 400, errField := Option.none }) ∧
    volApiCreate vd s true Option.none =
      (s, { status := 400, errField := Option.none }) ∧
    volApiCreate vd s false (Option.some req) =
      (s, { status := 404, errField := Option.none }) ∧
    volApiDelete vd s Option.none true =
      (s, { status := 400, errField := Option.none }) ∧
    volApiInspect vd s false (Option.some id) =
      (s, { status := 404, errField := Option.none }) := by
  refine ⟨?_, ?_, ?_, ?_, ?_, ?_, ?_, ?_, ?_, ?_, ?_⟩
  · intro s1 e h
    simp [volApiCreate, h, exceptStatus]
  · intro s1 e h
    simp [volApiDelete, h]
  · intro s1 rid e h
    simp [volApiSnap, h, responseStatus]
  · intro e h
    simp [volApiInspect, h]
  · intro r e h
    simp [volApiStats, h]
  · intro r e h
    simp [volApiAlerts, h]
  · intro r e h
    simp [volApiRequests, h]
  · simp [volApiCreate]
  · simp [volApiCreate]
  · simp [volApiDelete]
  · simp [volApiInspect]

/-- C6 amended witness: with the buse driver at a concrete state, a create
with an invalid spec is answered HTTP 200 with the error text embedded, and
a stats request is answered HTTP 400. -/
theorem c6_native_api_amended_witness :
    volApiCreate (buseIface sysW) stW true
        (Option.some
          { locator := { name := "db" }, source := Option.none,
            spec := { size := 0, format := FSType.ext4, scale := 1 } }) =
      (stW, { status := 200, errField := Option.some DErr.sizeZero.text }) ∧
    (volApiStats (buseIface sysW) stW (Option.some "v1") Option.none true).2 =
      { status := 400, errField := Option.none } := by
  have h := c6_native_api_amended (buseIface sysW) stW
    { locator := { name := "db" }, source := Option.none,
      spec := { size := 0, format := FSType.ext4, scale := 1 } }
    { id := "v1", readonly := false, locator := { name := "s" } } "v1" Option.none
  exact ⟨h.1 stW DErr.sizeZero rfl, h.2.2.2.2.1 Option.none DErr.notSupported rfl⟩

theorem scaleUpAuxExhaust (resolve : String → Option Volume)
    (att : String → Except DErr String) (inVol : Volume)
    (hdn : ∀ i j, 1 ≤ i → i < inVol.spec.scale → 1 ≤ j → j < inVol.spec.scale →
      derivedName inVol.locator.name i = derivedName inVol.locator.name j → i = j) :
    ∀ fuel i s, 1 ≤ i → i + fuel = inVol.spec.scale →
      (∀ j, i ≤ j → j < inVol.spec.scale →
        ∃ e, att (scaleCandidate resolve inVol.locator.name inVol.spec j).id =
          Except.error e) →
      (∀ w ∈ s.created, ∃ j, 1 ≤ j ∧ j < i ∧
        w = mkReplica (derivedName inVol.locator.name j) inVol.spec) →
      (scaleUpAux (scaleIface resolve att) inVol fuel i s).2 =
          (inVol, Option.some DErr.volAttachedScale) ∧
      (scaleUpAux (scaleIface resolve att) inVol fuel i s).1.mounted = s.mounted ∧
      (scaleUpAux (scaleIface resolve att) inVol fuel i s).1.attachCalls =
        s.attachCalls ++ (List.range' i fuel).map
          (fun j => (scaleCandidate resolve inVol.locator.name inVol.spec j).id) := by
  intro fuel
  induction fuel with
  | zero =>
    intro i s h1 h2 hfail hinv
    refine ⟨rfl, rfl, ?_⟩
    simp [scaleUpAux, List.range']
  | succ fuel ih =>
    intro i s h1 h2 hfail hinv
    have hi : i < inVol.spec.scale := by omega
    obtain ⟨e, he⟩ := hfail i (Nat.le_refl i) hi
    have hfail' : ∀ j, i + 1 ≤ j → j < inVol.spec.scale →
        ∃ e2, att (scaleCandidate resolve inVol.locator.name inVol.spec j).id =
          Except.error e2 :=
      fun j hj1 hj2 => hfail j (by omega) hj2
    rcases hres : resolve (derivedName inVol.locator.name i) with _ | v
    · have hcand : scaleCandidate resolve inVol.locator.name inVol.spec i =
          mkReplica (derivedName inVol.locator.name i) inVol.spec := by
        simp [scaleCandidate, hres]
      have hmiss : s.created.find?
          (fun w => w.id == derivedName inVol.locator.name i) = Option.none := by
        rw [List.find?_eq_none]
        intro w hw
        obtain ⟨j, hj1, hj2, rfl⟩ := hinv w hw
        simp only [mkReplica, beq_iff_eq]
        intro heq
        have := hdn j i hj1 (by omega) h1 hi heq
        omega
      rw [hcand] at he
      simp only [mkReplica] at he
      have hinv' : ∀ w ∈ (mkReplica (derivedName inVol.locator.name i) inVol.spec ::
          s.created), ∃ j, 1 ≤ j ∧ j < i + 1 ∧
          w = mkReplica (derivedName inVol.locator.name j) inVol.spec := by
        intro w hw
        rcases List.mem_cons.mp hw with hw | hw
        · exact ⟨i, h1, by omega, hw⟩
        · obtain ⟨j, hj1, hj2, hj3⟩ := hinv w hw
          exact ⟨j, hj1, by omega, hj3⟩
      have key := ih (i + 1)
        { s with
          created := mkReplica (derivedName inVol.locator.name i) inVol.spec ::
            s.created,
          attachCalls := s.attachCalls ++
            [(mkReplica (derivedName inVol.locator.name i) inVol.spec).id] }
        (by omega) (by omega) hfail' hinv'
      have hstep : scaleUpAux (scaleIface resolve att) inVol (fuel + 1) i s =
          scaleUpAux (scaleIface resolve att) inVol fuel (i + 1)
            { s with
              created := mkReplica (derivedName inVol.locator.name i) inVol.spec ::
                s.created,
              attachCalls := s.attachCalls ++
                [(mkReplica (derivedName inVol.locator.name i) inVol.spec).id] } := by
        simp [scaleUpAux, volFromNameI, scaleIface, hres, hmiss, he, mkReplica]
      rw [hstep]
      refine ⟨key.1, key.2.1, ?_⟩
      rw [key.2.2]
      simp [List.range', hcand, mkReplica, List.append_assoc]
    · have hcand : scaleCandidate resolve inVol.locator.name inVol.spec i = v := by
        simp [scaleCandidate, hres]
      rw [hcand] at he
      have hinv2 : ∀ w ∈ ({ s with attachCalls := s.attachCalls ++ [v.id] } :
          ScaleSim).created, ∃ j, 1 ≤ j ∧ j < i + 1 ∧
          w = mkReplica (derivedName inVol.locator.name j) inVol.spec := by
        intro w hw
        obtain ⟨j, hj1, hj2, hj3⟩ := hinv w hw
        exact ⟨j, hj1, by omega, hj3⟩
      have key := ih (i + 1)
        { s with attachCalls := s.attachCalls ++ [v.id] }
        (by omega) (by omega) hfail' hinv2
      have hstep : scaleUpAux (scaleIface resolve att) inVol (fuel + 1) i s =
          scaleUpAux (scaleIface resolve att) inVol fuel (i + 1)
            { s with attachCalls := s.attachCalls ++ [v.id] } := by
        simp [scaleUpAux, volFromNameI, scaleIface, hres, he]
      rw [hstep]
      refine ⟨key.1, key.2.1, ?_⟩
      rw [key.2.2]
      simp [List.range', hcand, List.append_assoc]

theorem scaleUpAuxFirstOk (resolve : String → Option Volume)
    (att : String → Except DErr String) (inVol : Volume)
    (hdn : ∀ i j, 1 ≤ i → i < inVol.spec.scale → 1 ≤ j → j < inVol.spec.scale →
      derivedName inVol.locator.name i = derivedName inVol.locator.name j → i = j) :
    ∀ fuel i s i0, 1 ≤ i → i + fuel = inVol.spec.scale → i ≤ i0 →
      i0 < inVol.spec.scale →
      (∀ j, i ≤ j → j < i0 →
        ∃ e, att (scaleCandidate resolve inVol.locator.name inVol.spec j).id =
          Except.error e) →
      (∃ p, att (scaleCandidate resolve inVol.locator.name inVol.spec i0).id =
        Except.ok p) →
      (∀ w ∈ s.created, ∃ j, 1 ≤ j ∧ j < i ∧
        w = mkReplica (derivedName inVol.locator.name j) inVol.spec) →
      (scaleUpAux (scaleIface resolve att) inVol fuel i s).2 =
          (scaleCandidate resolve inVol.locator.name inVol.spec i0, Option.none) ∧
      (scaleUpAux (scaleIface resolve att) inVol fuel i s).1.mounted = s.mounted := by
  intro fuel
  induction fuel with
  | zero =>
    intro i s i0 h1 h2 hle hlt hfail hok hinv
    exfalso
    omega
  | succ fuel ih =>
    intro i s i0 h1 h2 hle hlt hfail hok hinv
    have hi : i < inVol.spec.scale := by omega
    by_cases hii : i = i0
    · subst hii
      obtain ⟨p, hp⟩ := hok
      rcases hres : resolve (derivedName inVol.locator.name i) with _ | v
      · have hcand : scaleCandidate resolve inVol.locator.name inVol.spec i =
            mkReplica (derivedName inVol.locator.name i) inVol.spec := by
          simp [scaleCandidate, hres]
        have hmiss : s.created.find?
            (fun w => w.id == derivedName inVol.locator.name i) = Option.none := by
          rw [List.find?_eq_none]
          intro w hw
          obtain ⟨j, hj1, hj2, rfl⟩ := hinv w hw
          simp only [mkReplica, beq_iff_eq]
          intro heq
          have := hdn j i hj1 (by omega) h1 hi heq
          omega
        rw [hcand] at hp
        simp only [mkReplica] at hp
        refine ⟨?_, ?_⟩ <;>
          simp [scaleUpAux, volFromNameI, scaleIface, hres, hmiss, hp, hcand, mkReplica]
      · have hcand : scaleCandidate resolve inVol.locator.name inVol.spec i = v := by
          simp [scaleCandidate, hres]
        rw [hcand] at hp
        refine ⟨?_, ?_⟩ <;>
          simp [scaleUpAux, volFromNameI, scaleIface, hres, hp, hcand]
    · have hlt2 : i < i0 := Nat.lt_of_le_of_ne hle hii
      obtain ⟨e, he⟩ := hfail i (Nat.le_refl i) hlt2
      have hfail' : ∀ j, i + 1 ≤ j → j < i0 →
          ∃ e2, att (scaleCandidate resolve inVol.locator.name inVol.spec j).id =
            Except.error e2 :=
        fun j hj1 hj2 => hfail j (by omega) hj2
      rcases hres : resolve (derivedName inVol.locator.name i) with _ | v
      · have hcand : scaleCandidate resolve inVol.locator.name inVol.spec i =
            mkReplica (derivedName inVol.locator.name i) inVol.spec := by
          simp [scaleCandidate, hres]
        have hmiss : s.created.find?
            (fun w => w.id == derivedName inVol.locator.name i) = Option.none := by
          rw [List.find?_eq_none]
          intro w hw
          obtain ⟨j, hj1, hj2, rfl⟩ := hinv w hw
          simp only [mkReplica, beq_iff_eq]
          intro heq
          have := hdn j i hj1 (by omega) h1 hi heq
          omega
        rw [hcand] at he
        simp only [mkReplica] at he
        have hinv' : ∀ w ∈ (mkReplica (derivedName inVol.locator.name i) inVol.spec ::
            s.created), ∃ j, 1 ≤ j ∧ j < i + 1 ∧
            w = mkReplica (derivedName inVol.locator.name j) inVol.spec := by
          intro w hw
          rcases List.mem_cons.mp hw with hw | hw
          · exact ⟨i, h1, by omega, hw⟩
          · obtain ⟨j, hj1, hj2, hj3⟩ := hinv w hw
            exact ⟨j, hj1, by omega, hj3⟩
        have key := ih (i + 1)
          { s with
            created := mkReplica (derivedName inVol.locator.name i) inVol.spec ::
              s.created,
            attachCalls := s.attachCalls ++
              [(mkReplica (derivedName inVol.locator.name i) inVol.spec).id] }
          i0 (by omega) (by omega) (by omega) hlt hfail' hok hinv'
        have hstep : scaleUpAux (scaleIface resolve att) inVol (fuel + 1) i s =
            scaleUpAux (scaleIface resolve att) inVol fuel (i + 1)
              { s with
                created := mkReplica (derivedName inVol.locator.name i) inVol.spec ::
                  s.created,
                attachCalls := s.attachCalls ++
                  [(mkReplica (derivedName inVol.locator.name i) inVol.spec).id] } := by
          simp [scaleUpAux, volFromNameI, scaleIface, hres, hmiss, he, mkReplica]
        rw [hstep]
        exact ⟨key.1, key.2⟩
      · have hcand : scaleCandidate resolve inVol.locator.name inVol.spec i = v := by
          simp [scaleCandidate, hres]
        rw [hcand] at he
        have hinv2 : ∀ w ∈ ({ s with attachCalls := s.attachCalls ++ [v.id] } :
            ScaleSim).created, ∃ j, 1 ≤ j ∧ j < i + 1 ∧
            w = mkReplica (derivedName inVol.locator.name j) inVol.spec := by
          intro w hw
          obtain ⟨j, hj1, hj2, hj3⟩ := hinv w hw
          exact ⟨j, hj1, by omega, hj3⟩
        have key := ih (i + 1)
          { s with attachCalls := s.attachCalls ++ [v.id] }
          i0 (by omega) (by omega) (by omega) hlt hfail' hok hinv2
        have hstep : scaleUpAux (scaleIface resolve att) inVol (fuel + 1) i s =
            scaleUpAux (scaleIface resolve att) inVol fuel (i + 1)
              { s with attachCalls := s.attachCalls ++ [v.id] } := by
          simp [scaleUpAux, volFromNameI, scaleIface, hres, he]
        rw [hstep]
        exact ⟨key.1, key.2⟩

/-- C1: scale-up attach.  For a plugin Mount request on a block backend
whose resolved volume answers Attach with ErrVolAttachedScale (the spec name
for that error at this point is AttachedAtScaleLimit) and has Spec.Scale
above one, the handler runs the scale-up search over replica indices 1 up to
Scale - 1, resolving the derived name <name>_<i> or creating a volume with
that name and the source Spec, and attaching it.  First conjunct: when every
replica attach fails, the mount fails with ErrVolAttachedScale (the spec
name here is ScaleExhausted), nothing is mounted, and the attach calls are
exactly the input volume followed by every replica candidate in index order.
Second conjunct: when the attach of the candidate at the first index i0
succeeds (all earlier ones failing), that candidate is the volume mounted,
at the mountpath derived from the request name. -/
theorem c1_scale_up_attach (resolve : String → Option Volume)
    (att : String → Except DErr String) (inVol : Volume)
    (hname : resolve inVol.locator.name = Option.some inVol)
    (hatt0 : att inVol.id = Except.error DErr.volAttachedScale)
    (hsc : 1 < inVol.spec.scale)
    (hdn : ∀ i j, 1 ≤ i → i < inVol.spec.scale → 1 ≤ j → j < inVol.spec.scale →
      derivedName inVol.locator.name i = derivedName inVol.locator.name j → i = j) :
    ((∀ j, 1 ≤ j → j < inVol.spec.scale →
        ∃ e, att (scaleCandidate resolve inVol.locator.name inVol.spec j).id =
          Except.error e) →
      (pluginMount (scaleIface resolve att) ScaleSim.init inVol.locator.name).2 =
        (Option.none, Option.some DErr.volAttachedScale) ∧
      (pluginMount (scaleIface resolve att) ScaleSim.init inVol.locator.name).1.mounted
        = [] ∧
      (pluginMount (scaleIface resolve att) ScaleSim.init
          inVol.locator.name).1.attachCalls =
        inVol.id :: (List.range' 1 (inVol.spec.scale - 1)).map
          (fun j => (scaleCandidate resolve inVol.locator.name inVol.spec j).id)) ∧
    (∀ i0, 1 ≤ i0 → i0 < inVol.spec.scale →
      (∀ j, 1 ≤ j → j < i0 →
        ∃ e, att (scaleCandidate resolve inVol.locator.name inVol.spec j).id =
          Except.error e) →
      (∃ p, att (scaleCandidate resolve inVol.locator.name inVol.spec i0).id =
        Except.ok p) →
      (pluginMount (scaleIface resolve att) ScaleSim.init inVol.locator.name).2 =
        (Option.some (mountpathOf inVol.locator.name), Option.none) ∧
      (pluginMount (scaleIface resolve att) ScaleSim.init
          inVol.locator.name).1.mounted =
        [((scaleCandidate resolve inVol.locator.name inVol.spec i0).id,
          mountpathOf inVol.locator.name)]) := by
  have hres0 : volFromNameI (scaleIface resolve att) ScaleSim.init
      inVol.locator.name = Except.ok inVol := by
    simp [volFromNameI, scaleIface, hname]
  have htyp : (scaleIface resolve att).typ = DriverType.block := rfl
  have hattach0 : (scaleIface resolve att).attach ScaleSim.init inVol.id =
      (⟨[], [inVol.id], []⟩, Except.error DErr.volAttachedScale) := by
    simp [scaleIface, ScaleSim.init, hatt0]
  have hAV : attachVol (scaleIface resolve att) ScaleSim.init inVol =
      scaleUpAux (scaleIface resolve att) inVol (inVol.spec.scale - 1) 1
        ⟨[], [inVol.id], []⟩ := by
    simp only [attachVol, hattach0, scaleUp]
    simp [hsc]
  have hinv0 : ∀ w ∈ (⟨[], [inVol.id], []⟩ : ScaleSim).created,
      ∃ j, 1 ≤ j ∧ j < 1 ∧
        w = mkReplica (derivedName inVol.locator.name j) inVol.spec := by
    intro w hw
    exact absurd hw (List.not_mem_nil w)
  constructor
  · intro hfailall
    have key := scaleUpAuxExhaust resolve att inVol hdn (inVol.spec.scale - 1) 1
      ⟨[], [inVol.id], []⟩ (Nat.le_refl 1) (by omega) hfailall hinv0
    rcases hSU : scaleUpAux (scaleIface resolve att) inVol (inVol.spec.scale - 1) 1
      ⟨[], [inVol.id], []⟩ with ⟨sE, volE, errE⟩
    rw [hSU] at key
    have hv1 : volE = inVol := congrArg Prod.fst key.1
    have hv2 : errE = Option.some DErr.volAttachedScale := congrArg Prod.snd key.1
    rw [hv1, hv2] at hSU
    have km : sE.mounted = [] := key.2.1
    have ka : sE.attachCalls = [inVol.id] ++ (List.range' 1 (inVol.spec.scale - 1)).map
        (fun j => (scaleCandidate resolve inVol.locator.name inVol.spec j).id) :=
      key.2.2
    have hPM : pluginMount (scaleIface resolve att) ScaleSim.init
        inVol.locator.name = (sE, Option.none, Option.some DErr.volAttachedScale) := by
      simp only [pluginMount, hres0, htyp, hAV, hSU]
      simp
    rw [hPM]
    refine ⟨rfl, km, ?_⟩
    rw [ka]
    simp
  · intro i0 h1 h2 hfailbefore hok
    have key := scaleUpAuxFirstOk resolve att inVol hdn (inVol.spec.scale - 1) 1
      ⟨[], [inVol.id], []⟩ i0 (Nat.le_refl 1) (by omega) h1 h2 hfailbefore hok hinv0
    rcases hSU : scaleUpAux (scaleIface resolve att) inVol (inVol.spec.scale - 1) 1
      ⟨[], [inVol.id], []⟩ with ⟨sE, volE, errE⟩
    rw [hSU] at key
    have hv1 : volE = scaleCandidate resolve inVol.locator.name inVol.spec i0 :=
      congrArg Prod.fst key.1
    have hv2 : errE = Option.none := congrArg Prod.snd key.1
    rw [hv1, hv2] at hSU
    have km : sE.mounted = [] := key.2
    have hmount : (scaleIface resolve att).mount sE
        (scaleCandidate resolve inVol.locator.name inVol.spec i0).id
        (mountpathOf inVol.locator.name) =
        ({ sE with mounted := sE.mounted ++
            [((scaleCandidate resolve inVol.locator.name inVol.spec i0).id,
              mountpathOf inVol.locator.name)] }, Option.none) := rfl
    have hPM : pluginMount (scaleIface resolve att) ScaleSim.init
        inVol.locator.name =
        ({ sE with mounted := sE.mounted ++
            [((scaleCandidate resolve inVol.locator.name inVol.spec i0).id,
              mountpathOf inVol.locator.name)] },
         Option.some (mountpathOf inVol.locator.name), Option.none) := by
      simp [pluginMount, hres0, htyp, hAV, hSU, hmount]
    rw [hPM]
    refine ⟨rfl, ?_⟩
    simp [km]

/-- C1 witness: with scale three, the base volume at its scale limit, the
first replica resolving but failing to attach and the second being created
and attaching, the plugin mount responds with the mountpoint of the request
name and mounts exactly the created second replica. -/
theorem c1_scale_up_attach_witness :
    (pluginMount (scaleIface resolveW attW) ScaleSim.init "db").2 =
      (Option.some (mountpathOf "db"), Option.none) ∧
    (pluginMount (scaleIface resolveW attW) ScaleSim.init "db").1.mounted =
      [("db_2", mountpathOf "db")] := by
  have hs3 : inV0.spec.scale = 3 := rfl
  have hdn : ∀ i j, 1 ≤ i → i < inV0.spec.scale → 1 ≤ j → j < inV0.spec.scale →
      derivedName inV0.locator.name i = derivedName inV0.locator.name j → i = j := by
    intro i j h1 h2 h3 h4 heq
    rw [hs3] at h2 h4
    interval_cases i <;> interval_cases j <;> revert heq <;> decide
  have hfail : ∀ j, 1 ≤ j → j < 2 →
      ∃ e, attW (scaleCandidate resolveW inV0.locator.name inV0.spec j).id =
        Except.error e := by
    intro j h1 h2
    interval_cases j
    exact ⟨DErr.other "attached elsewhere", rfl⟩
  have hok : ∃ p, attW (scaleCandidate resolveW inV0.locator.name inV0.spec 2).id =
      Except.ok p := ⟨"/attach/" ++ "db_2", rfl⟩
  have h := c1_scale_up_attach resolveW attW inV0 rfl rfl (by decide) hdn
  exact h.2 2 (by decide) (by decide) hfail hok

end Buse
